import Mathlib

/-!
Verification of the loan-payment module in
`src/code/module-03/m03-start/module03.ts`.

The two functions `calculateInterestOnlyLoanPayment` and
`calculateConventionalLoanPayment` compute with JavaScript numbers and
return presentation strings built with `Number.prototype.toFixed(2)`.
Finite JavaScript numbers are idealized as exact rationals (the spec speaks
of real numbers); the special values `NaN`, `Infinity` and `-Infinity`,
which the unguarded divisions in the source can produce, are represented
explicitly, with the IEEE-754 propagation rules JavaScript uses for them.
-/

/-- A JavaScript number value: `NaN`, a signed infinity (`inf true` is
`+Infinity`), or a finite value idealized as an exact rational. -/
inductive JSNum where
  | nan : JSNum
  | inf : Bool → JSNum
  | fin : ℚ → JSNum
deriving DecidableEq

namespace JSNum

/-- JavaScript unary negation on numbers. -/
def neg : JSNum → JSNum
  | nan => nan
  | inf s => inf (!s)
  | fin q => fin (-q)

/-- JavaScript `+` on numbers: `NaN` propagates; opposite infinities give
`NaN`; an infinity absorbs finite summands. -/
def add : JSNum → JSNum → JSNum
  | nan, _ => nan
  | _, nan => nan
  | inf s, inf t => if s = t then inf s else nan
  | inf s, fin _ => inf s
  | fin _, inf t => inf t
  | fin a, fin b => fin (a + b)

/-- JavaScript binary `-` on numbers. -/
def sub (a b : JSNum) : JSNum := add a (neg b)

/-- JavaScript `*` on numbers: `NaN` propagates; `Infinity * 0` is `NaN`;
otherwise infinities multiply by sign. -/
def mul : JSNum → JSNum → JSNum
  | nan, _ => nan
  | _, nan => nan
  | inf s, inf t => inf (s == t)
  | inf s, fin q => if q = 0 then nan else inf (s == decide (0 < q))
  | fin q, inf t => if q = 0 then nan else inf (t == decide (0 < q))
  | fin a, fin b => fin (a * b)

/-- JavaScript `/` on numbers: `NaN` propagates; `Infinity / Infinity` is
`NaN`; a finite value over an infinity is `0`; division by zero gives
`NaN` for `0 / 0` and a signed infinity otherwise.  (Zero is treated as
`+0`; negative zero does not arise in the program.) -/
def div : JSNum → JSNum → JSNum
  | nan, _ => nan
  | _, nan => nan
  | inf _, inf _ => nan
  | inf s, fin q => inf (s == decide (0 ≤ q))
  | fin _, inf _ => fin 0
  | fin a, fin b =>
      if b = 0 then (if a = 0 then nan else inf (decide (0 < a)))
      else fin (a / b)

/-- JavaScript `Math.pow` restricted to an integer exponent (the program
only ever raises to the integral `months` term; a non-integral exponent
would be transcendental).  `Math.pow (x, 0) = 1` for every `x`, `NaN`
otherwise propagates, and an infinite base follows the IEEE sign rules. -/
def powInt (b : JSNum) (n : ℤ) : JSNum :=
  if n = 0 then fin 1
  else
    match b with
    | nan => nan
    | inf s => if 0 < n then inf (s || decide (n % 2 = 0)) else fin 0
    | fin q =>
        if 0 < n then fin (q ^ n.toNat)
        else if q = 0 then inf true
        else fin ((q ^ (-n).toNat)⁻¹)

/-- The integer of hundredths selected by `toFixed(2)` for a finite value:
the integer `n` minimizing `|n / 100 - q|`, the larger `n` on a tie
(ECMA-262's rounding rule for `toFixed`). -/
def round2 (q : ℚ) : ℤ := ⌊q * 100 + 1 / 2⌋

/-- Renders a count of hundredths as a decimal numeral with exactly two
fraction digits, e.g. `23724 ↦ "237.24"` and `12500 ↦ "125.00"`. -/
def fmt2 (n : ℤ) : String :=
  (if n < 0 then "-" else "") ++ Nat.repr (n.natAbs / 100) ++ "." ++
    String.mk [Nat.digitChar (n.natAbs / 10 % 10), Nat.digitChar (n.natAbs % 10)]

/-- The `ToString` rendering `Number.prototype.toFixed` falls back to when
the magnitude is at least `10 ^ 21`: sign, then exponential form built from
the decimal digits of the value — leading digit, the remaining digits of the
integer part with trailing zeros removed, `"e+"`, and the exponent.  In the
idealization finite values are exact rationals, so the digits are those of
the exact value (at these magnitudes any fractional part lies far below
double precision and is truncated; JavaScript's shortest-round-trip digit
choice coincides with the exact digits once the value is taken exactly). -/
def expoString (q : ℚ) : String :=
  let ds := (Nat.repr ⌊|q|⌋.toNat).toList
  let tail := ((ds.drop 1).reverse.dropWhile (fun c => c == '0')).reverse
  (if q < 0 then "-" else "") ++ String.mk (ds.take 1) ++
    (if tail.isEmpty then "" else "." ++ String.mk tail) ++
    "e+" ++ Nat.repr (ds.length - 1)

/-- `Number.prototype.toFixed(2)`: `"NaN"` and `"Infinity"` for the special
values; for a finite value of magnitude below `10 ^ 21`, round to the
nearest hundredth (ties toward the larger candidate) and render with
exactly two fraction digits; for a magnitude of `10 ^ 21` or more, ECMA-262
falls back to the ordinary `ToString` rendering, which is exponential
notation at such magnitudes. -/
def toFixed2 : JSNum → String
  | nan => "NaN"
  | inf s => if s then "Infinity" else "-Infinity"
  | fin q => if |q| < 10 ^ 21 then fmt2 (round2 q) else expoString q

/-- Whether a JavaScript number is a non-negative (finite) real value. -/
def isNonnegReal : JSNum → Bool
  | fin q => decide (0 ≤ q)
  | _ => false

end JSNum

/-- Whether a string ends in a dot followed by exactly two decimal digits —
the shape of a `toFixed(2)` rendering in its fixed-point regime. -/
def endsInTwoDecimals (s : String) : Bool :=
  match s.toList.reverse with
  | d₂ :: d₁ :: c :: _ => c == '.' && d₁.isDigit && d₂.isDigit
  | _ => false

/-- TypeScript `interface Loan { principle: number; interest: number }`. -/
structure Loan where
  principle : JSNum
  interest : JSNum
deriving DecidableEq

/-- TypeScript `interface ConventionalLoan extends Loan { months: number }`.
The term is modeled as an integer: every claim quantifies it over
integers, and `Math.pow` at a non-integral exponent is transcendental. -/
structure ConventionalLoan extends Loan where
  months : ℤ
deriving DecidableEq

/-- The monthly payment value computed inside
`calculateInterestOnlyLoanPayment`:
`interest = interestRate / 1200; payment = principle * interest`. -/
def interestOnlyPaymentValue (l : Loan) : JSNum :=
  JSNum.mul l.principle (JSNum.div l.interest (JSNum.fin 1200))

/-- `calculateInterestOnlyLoanPayment` from `module03.ts`: computes the
payment and returns `"The interest only loan payment is " + payment.toFixed(2)`. -/
def calculateInterestOnlyLoanPayment (l : Loan) : String :=
  "The interest only loan payment is " ++ (interestOnlyPaymentValue l).toFixed2

/-- The monthly payment value computed inside
`calculateConventionalLoanPayment`:
`interest = interestRate / 1200;
 payment = (principle * interest) / (1 - Math.pow(1 / (1 + interest), months))`. -/
def conventionalPaymentValue (l : ConventionalLoan) : JSNum :=
  let interest := JSNum.div l.interest (JSNum.fin 1200)
  JSNum.div (JSNum.mul l.principle interest)
    (JSNum.sub (JSNum.fin 1)
      (JSNum.powInt (JSNum.div (JSNum.fin 1) (JSNum.add (JSNum.fin 1) interest)) l.months))

/-- `calculateConventionalLoanPayment` from `module03.ts`: computes the
payment and returns `"The conventional loan payment is " + payment.toFixed(2)`. -/
def calculateConventionalLoanPayment (l : ConventionalLoan) : String :=
  "The conventional loan payment is " ++ (conventionalPaymentValue l).toFixed2

/-- The script's `interestOnlyPayment` value: the call with
`{ principle: 30000, interest: 5 }`. -/
def interestOnlyPayment : String :=
  calculateInterestOnlyLoanPayment ⟨JSNum.fin 30000, JSNum.fin 5⟩

/-- The script's `conventionalPayment` value: the call with
`{ principle: 30000, interest: 5, months: 180 }`. -/
def conventionalPayment : String :=
  calculateConventionalLoanPayment ⟨⟨JSNum.fin 30000, JSNum.fin 5⟩, 180⟩

/-! ## Evaluation lemmas for the embedded arithmetic -/

namespace JSNum

lemma div_fin_fin (a b : ℚ) (hb : b ≠ 0) : div (fin a) (fin b) = fin (a / b) := by
  simp [div, hb]

lemma mul_fin_fin (a b : ℚ) : mul (fin a) (fin b) = fin (a * b) := rfl

lemma add_fin_fin (a b : ℚ) : add (fin a) (fin b) = fin (a + b) := rfl

lemma sub_fin_fin (a b : ℚ) : sub (fin a) (fin b) = fin (a - b) := by
  simp [sub, add, neg, sub_eq_add_neg]

lemma powInt_fin_pos (q : ℚ) (n : ℤ) (hn : 0 < n) :
    powInt (fin q) n = fin (q ^ n.toNat) := by
  simp [powInt, hn, hn.ne']

lemma div_fin_zero_zero : div (fin 0) (fin 0) = nan := by
  simp [div]

end JSNum

open JSNum in
lemma interestOnlyPaymentValue_fin (p i : ℚ) :
    interestOnlyPaymentValue ⟨fin p, fin i⟩ = fin (p * (i / 1200)) := by
  show mul (fin p) (div (fin i) (fin 1200)) = _
  rw [div_fin_fin i 1200 (by norm_num), mul_fin_fin]

open JSNum in
lemma conventionalPaymentValue_fin (p i : ℚ) (m : ℤ) (hm : 0 < m)
    (h1 : (1 : ℚ) + i / 1200 ≠ 0) :
    conventionalPaymentValue ⟨⟨fin p, fin i⟩, m⟩ =
      div (fin (p * (i / 1200))) (fin (1 - (1 / (1 + i / 1200)) ^ m.toNat)) := by
  show div (mul (fin p) (div (fin i) (fin 1200)))
      (sub (fin 1) (powInt (div (fin 1) (add (fin 1) (div (fin i) (fin 1200)))) m)) = _
  rw [div_fin_fin i 1200 (by norm_num), add_fin_fin, div_fin_fin 1 _ h1,
    powInt_fin_pos _ _ hm, sub_fin_fin, mul_fin_fin]

open JSNum in
lemma conventionalPaymentValue_zero_rate (p : ℚ) (m : ℤ) (hm : 0 < m) :
    conventionalPaymentValue ⟨⟨fin p, fin 0⟩, m⟩ = nan := by
  rw [conventionalPaymentValue_fin p 0 m hm (by norm_num)]
  norm_num [div_fin_zero_zero]

open JSNum in
lemma conventionalPaymentValue_pos_rate (p i : ℚ) (m : ℤ) (hi : 0 < i) (hm : 0 < m) :
    conventionalPaymentValue ⟨⟨fin p, fin i⟩, m⟩ =
      fin (p * (i / 1200) / (1 - (1 / (1 + i / 1200)) ^ m.toNat)) ∧
    (0 : ℚ) < 1 - (1 / (1 + i / 1200)) ^ m.toNat := by
  have hr : (0 : ℚ) < i / 1200 := by positivity
  have h1 : (0 : ℚ) < 1 + i / 1200 := by linarith
  have hb0 : (0 : ℚ) ≤ 1 / (1 + i / 1200) := by positivity
  have hb1 : 1 / (1 + i / 1200) < (1 : ℚ) := by
    rw [div_lt_one h1]; linarith
  have hpow : (1 / (1 + i / 1200)) ^ m.toNat < (1 : ℚ) :=
    pow_lt_one₀ hb0 hb1 (by omega)
  have hden : (0 : ℚ) < 1 - (1 / (1 + i / 1200)) ^ m.toNat := by linarith
  exact ⟨by rw [conventionalPaymentValue_fin p i m hm h1.ne',
    div_fin_fin _ _ hden.ne'], hden⟩

open JSNum in
lemma toFixed2_fin_eq (q : ℚ) (z : ℤ) (hlo : -(10 ^ 21) < q) (hhi : q < 10 ^ 21)
    (h1 : (z : ℚ) ≤ q * 100 + 1 / 2)
    (h2 : q * 100 + 1 / 2 < z + 1) : toFixed2 (fin q) = fmt2 z := by
  rw [toFixed2, if_pos (abs_lt.mpr ⟨hlo, hhi⟩), round2,
    Int.floor_eq_iff.mpr ⟨h1, h2⟩]

open JSNum in
lemma expoString_pow21 : expoString ((10 : ℚ) ^ 21) = "1e+21" := by
  have hfl : (⌊|((10 : ℚ) ^ 21)|⌋).toNat = 10 ^ 21 := by
    rw [abs_of_nonneg (by positivity),
      show ((10 : ℚ) ^ 21) = (((10 ^ 21 : ℕ) : ℤ) : ℚ) by push_cast; ring,
      Int.floor_intCast, Int.toNat_natCast]
  simp only [expoString]
  rw [hfl, if_neg (by norm_num),
    show (10 : ℕ) ^ 21 = 1000000000000000000000 by norm_num]
  decide

lemma digitChar_isDigit (n : ℕ) (h : n < 10) : (Nat.digitChar n).isDigit = true := by
  interval_cases n <;> decide

/-! ## The claims -/

/-- Claim C1: for every principal > 0 and rate ≥ 0, the monthly payment value
computed inside `calculateInterestOnlyLoanPayment` is exactly
`principal * rate / 1200`. -/
theorem C1_interest_only_exact (p i : ℚ) (hp : 0 < p) (hi : 0 ≤ i) :
    interestOnlyPaymentValue ⟨JSNum.fin p, JSNum.fin i⟩ = JSNum.fin (p * i / 1200) := by
  rw [interestOnlyPaymentValue_fin, mul_div_assoc]

/-- Witness for C1 at principal 30000, rate 5. -/
theorem C1_interest_only_exact_witness :
    interestOnlyPaymentValue ⟨JSNum.fin 30000, JSNum.fin 5⟩ =
      JSNum.fin (30000 * 5 / 1200) :=
  C1_interest_only_exact 30000 5 (by norm_num) (by norm_num)

/-- Claim C2: for principal > 0, rate > 0 and an integer term > 0, the code's
denominator `1 - (1 / (1 + monthlyRate)) ^ termMonths` equals the spec's
`1 - (1 + monthlyRate) ^ (-termMonths)`, and the computed payment is
`(principal * monthlyRate) / (1 - (1 + monthlyRate) ^ (-termMonths))` with
`monthlyRate = rate / 1200`. -/
theorem C2_conventional_formula (p i : ℚ) (m : ℤ) (hp : 0 < p) (hi : 0 < i)
    (hm : 0 < m) :
    (1 : ℚ) - (1 / (1 + i / 1200)) ^ m.toNat = 1 - (1 + i / 1200) ^ (-m) ∧
    conventionalPaymentValue ⟨⟨JSNum.fin p, JSNum.fin i⟩, m⟩ =
      JSNum.fin (p * (i / 1200) / (1 - (1 + i / 1200) ^ (-m))) := by
  have hzp : ((1 : ℚ) + i / 1200) ^ (-m) = (1 / (1 + i / 1200)) ^ m.toNat := by
    rw [one_div, inv_pow, ← zpow_natCast ((1 : ℚ) + i / 1200) m.toNat,
      Int.toNat_of_nonneg hm.le, zpow_neg]
  refine ⟨by rw [hzp], ?_⟩
  rw [hzp]
  exact (conventionalPaymentValue_pos_rate p i m hi hm).1

/-- Witness for C2 at principal 30000, rate 5, term 180. -/
theorem C2_conventional_formula_witness :
    ((1 : ℚ) - (1 / (1 + 5 / 1200)) ^ (180 : ℤ).toNat =
      1 - (1 + 5 / 1200) ^ (-(180 : ℤ))) ∧
    conventionalPaymentValue ⟨⟨JSNum.fin 30000, JSNum.fin 5⟩, 180⟩ =
      JSNum.fin (30000 * (5 / 1200) / (1 - (1 + 5 / 1200) ^ (-(180 : ℤ)))) :=
  C2_conventional_formula 30000 5 180 (by norm_num) (by norm_num) (by norm_num)

/-- Claim C3, failing input: at principal 30000, rate 0, months 12 the claim
mandates the straight-line payment 30000 / 12 = 2500.00, but the code divides
0 by 0 and returns the NaN presentation string. -/
theorem C3_zero_rate_failing_input :
    calculateConventionalLoanPayment ⟨⟨JSNum.fin 30000, JSNum.fin 0⟩, 12⟩ =
      "The conventional loan payment is NaN" := by
  rw [calculateConventionalLoanPayment,
    conventionalPaymentValue_zero_rate 30000 12 (by norm_num)]
  rfl

/-- Claim C4, counterexample: at principal 0 (which violates principal > 0)
the interest-only function raises nothing and returns an ordinary payment
string. -/
theorem C4_no_validation_cex :
    calculateInterestOnlyLoanPayment ⟨JSNum.fin 0, JSNum.fin 5⟩ =
      "The interest only loan payment is 0.00" := by
  rw [calculateInterestOnlyLoanPayment, interestOnlyPaymentValue_fin,
    show (0 : ℚ) * (5 / 1200) = 0 by norm_num,
    toFixed2_fin_eq 0 0 (by norm_num) (by norm_num) (by norm_num) (by norm_num)]
  rfl

/-- Claim C4, amended: the source performs no input validation at all: for
every input, valid or not, each function returns its payment message string
rather than raising an error. -/
theorem C4_no_validation (l : Loan) (c : ConventionalLoan) :
    (∃ s, calculateInterestOnlyLoanPayment l =
      "The interest only loan payment is " ++ s) ∧
    (∃ s, calculateConventionalLoanPayment c =
      "The conventional loan payment is " ++ s) :=
  ⟨⟨_, rfl⟩, ⟨_, rfl⟩⟩

/-- Claim C5: the interest-only payment at principal 30000 and rate 5 is
presented as 125.00. -/
theorem C5_interest_only_example :
    calculateInterestOnlyLoanPayment ⟨JSNum.fin 30000, JSNum.fin 5⟩ =
      "The interest only loan payment is 125.00" := by
  rw [calculateInterestOnlyLoanPayment, interestOnlyPaymentValue_fin,
    show (30000 : ℚ) * (5 / 1200) = 125 by norm_num,
    toFixed2_fin_eq 125 12500 (by norm_num) (by norm_num) (by norm_num)
      (by norm_num)]
  rfl

/-- Claim C6: the amortized payment at principal 30000, rate 5, term 180 is
presented as 237.24. -/
theorem C6_conventional_example :
    calculateConventionalLoanPayment ⟨⟨JSNum.fin 30000, JSNum.fin 5⟩, 180⟩ =
      "The conventional loan payment is 237.24" := by
  rw [calculateConventionalLoanPayment,
    (conventionalPaymentValue_pos_rate 30000 5 180 (by norm_num) (by norm_num)).1,
    toFixed2_fin_eq _ 23724
      (by norm_num [show Int.toNat 180 = 180 from rfl])
      (by norm_num [show Int.toNat 180 = 180 from rfl])
      (by norm_num [show Int.toNat 180 = 180 from rfl])
      (by norm_num [show Int.toNat 180 = 180 from rfl])]
  rfl

/-- Claim C7, counterexample: principal 1, rate 0, term 12 satisfies the
claim's validity conditions (principal > 0, rate ≥ 0, positive integer term),
yet the computed amortized payment is NaN, not a non-negative real number. -/
theorem C7_nonneg_cex :
    JSNum.isNonnegReal
      (conventionalPaymentValue ⟨⟨JSNum.fin 1, JSNum.fin 0⟩, 12⟩) = false := by
  rw [conventionalPaymentValue_zero_rate 1 12 (by norm_num)]
  rfl

/-- Claim C7, amended: the interest-only payment value is a non-negative real
for principal > 0 and rate ≥ 0; the amortized payment value is a non-negative
real for principal > 0, rate > 0 and a positive integer term (at rate 0 the
unguarded division yields NaN instead). -/
theorem C7_nonneg (p i : ℚ) (m : ℤ) :
    (0 < p → 0 ≤ i →
      JSNum.isNonnegReal
        (interestOnlyPaymentValue ⟨JSNum.fin p, JSNum.fin i⟩) = true) ∧
    (0 < p → 0 < i → 0 < m →
      JSNum.isNonnegReal
        (conventionalPaymentValue ⟨⟨JSNum.fin p, JSNum.fin i⟩, m⟩) = true) := by
  constructor
  · intro hp hi
    rw [interestOnlyPaymentValue_fin]
    simp only [JSNum.isNonnegReal, decide_eq_true_eq]
    exact mul_nonneg hp.le (div_nonneg hi (by norm_num))
  · intro hp hi hm
    obtain ⟨heq, hden⟩ := conventionalPaymentValue_pos_rate p i m hi hm
    rw [heq]
    simp only [JSNum.isNonnegReal, decide_eq_true_eq]
    exact div_nonneg (mul_nonneg hp.le (div_nonneg hi.le (by norm_num))) hden.le

/-- Witness for C7 at principal 30000, rate 5, term 180. -/
theorem C7_nonneg_witness :
    JSNum.isNonnegReal
      (interestOnlyPaymentValue ⟨JSNum.fin 30000, JSNum.fin 5⟩) = true ∧
    JSNum.isNonnegReal
      (conventionalPaymentValue ⟨⟨JSNum.fin 30000, JSNum.fin 5⟩, 180⟩) = true :=
  ⟨(C7_nonneg 30000 5 180).1 (by norm_num) (by norm_num),
   (C7_nonneg 30000 5 180).2 (by norm_num) (by norm_num) (by norm_num)⟩

/-- Claim C8: both functions are deterministic and, as total functions of
their argument records, pure: identical inputs give identical outputs. -/
theorem C8_deterministic (l₁ l₂ : Loan) (c₁ c₂ : ConventionalLoan)
    (hl : l₁ = l₂) (hc : c₁ = c₂) :
    calculateInterestOnlyLoanPayment l₁ = calculateInterestOnlyLoanPayment l₂ ∧
    calculateConventionalLoanPayment c₁ = calculateConventionalLoanPayment c₂ := by
  subst hl; subst hc; exact ⟨rfl, rfl⟩

/-- Witness for C8 at the script's own inputs. -/
theorem C8_deterministic_witness :
    calculateInterestOnlyLoanPayment ⟨JSNum.fin 30000, JSNum.fin 5⟩ =
      calculateInterestOnlyLoanPayment ⟨JSNum.fin 30000, JSNum.fin 5⟩ ∧
    calculateConventionalLoanPayment ⟨⟨JSNum.fin 30000, JSNum.fin 5⟩, 180⟩ =
      calculateConventionalLoanPayment ⟨⟨JSNum.fin 30000, JSNum.fin 5⟩, 180⟩ :=
  C8_deterministic _ _ _ _ rfl rfl

/-- Claim C9, counterexample: at principal `10 ^ 21` and rate 1200 the
payment value is `10 ^ 21`, which lies in `toFixed`'s fall-back regime
(magnitude at least `10 ^ 21`): the function returns the exponential
rendering `"...1e+21"`, which does not end in a dot and two decimal
digits. -/
theorem C9_presentation_cex :
    calculateInterestOnlyLoanPayment ⟨JSNum.fin (10 ^ 21), JSNum.fin 1200⟩ =
      "The interest only loan payment is 1e+21" ∧
    endsInTwoDecimals "The interest only loan payment is 1e+21" = false := by
  constructor
  · rw [calculateInterestOnlyLoanPayment, interestOnlyPaymentValue_fin,
      show ((10 : ℚ) ^ 21) * (1200 / 1200) = 10 ^ 21 by norm_num,
      JSNum.toFixed2, if_neg (by rw [abs_of_nonneg (by positivity)]; norm_num),
      expoString_pow21]
    rfl
  · decide

/-- Claim C9, amended: each function returns its message text followed by
the payment value rendered by `toFixed(2)` — presentation strings, not
numbers — and for a finite payment value within `toFixed`'s fixed-point
regime (magnitude below `10 ^ 21`) that rendering ends in a dot followed by
exactly two decimal digits.  (Outside that regime `toFixed` falls back to
exponential `ToString` notation, and the special values render as
`NaN` / `Infinity`.) -/
theorem C9_presentation_strings (l : Loan) (c : ConventionalLoan) (q : ℚ) :
    calculateInterestOnlyLoanPayment l =
      "The interest only loan payment is " ++ (interestOnlyPaymentValue l).toFixed2 ∧
    calculateConventionalLoanPayment c =
      "The conventional loan payment is " ++ (conventionalPaymentValue c).toFixed2 ∧
    (|q| < 10 ^ 21 →
      ∃ s d₁ d₂, (JSNum.fin q).toFixed2 = s ++ "." ++ String.mk [d₁, d₂] ∧
        d₁.isDigit = true ∧ d₂.isDigit = true) := by
  refine ⟨rfl, rfl, fun h => ?_⟩
  rw [JSNum.toFixed2, if_pos h]
  refine ⟨(if JSNum.round2 q < 0 then "-" else "") ++
      Nat.repr ((JSNum.round2 q).natAbs / 100),
    Nat.digitChar ((JSNum.round2 q).natAbs / 10 % 10),
    Nat.digitChar ((JSNum.round2 q).natAbs % 10), rfl, ?_, ?_⟩
  · exact digitChar_isDigit _ (Nat.mod_lt _ (by norm_num))
  · exact digitChar_isDigit _ (Nat.mod_lt _ (by norm_num))

/-- Witness for the amended C9: at the script's own inputs and the finite
payment value 125. -/
theorem C9_presentation_strings_witness :
    calculateInterestOnlyLoanPayment ⟨JSNum.fin 30000, JSNum.fin 5⟩ =
      "The interest only loan payment is "
        ++ (interestOnlyPaymentValue ⟨JSNum.fin 30000, JSNum.fin 5⟩).toFixed2 ∧
    calculateConventionalLoanPayment ⟨⟨JSNum.fin 30000, JSNum.fin 5⟩, 180⟩ =
      "The conventional loan payment is "
        ++ (conventionalPaymentValue ⟨⟨JSNum.fin 30000, JSNum.fin 5⟩, 180⟩).toFixed2 ∧
    ∃ s d₁ d₂, (JSNum.fin (125 : ℚ)).toFixed2 = s ++ "." ++ String.mk [d₁, d₂] ∧
      d₁.isDigit = true ∧ d₂.isDigit = true :=
  ⟨(C9_presentation_strings ⟨JSNum.fin 30000, JSNum.fin 5⟩
      ⟨⟨JSNum.fin 30000, JSNum.fin 5⟩, 180⟩ 125).1,
   (C9_presentation_strings ⟨JSNum.fin 30000, JSNum.fin 5⟩
      ⟨⟨JSNum.fin 30000, JSNum.fin 5⟩, 180⟩ 125).2.1,
   (C9_presentation_strings ⟨JSNum.fin 30000, JSNum.fin 5⟩
      ⟨⟨JSNum.fin 30000, JSNum.fin 5⟩, 180⟩ 125).2.2 (by norm_num)⟩

/-- Claim C10: for any principal and positive term, a zero interest rate
drives the unguarded division to 0 / 0 = NaN, and the function returns
"The conventional loan payment is NaN". -/
theorem C10_zero_rate_nan (p : ℚ) (m : ℤ) (hm : 0 < m) :
    calculateConventionalLoanPayment ⟨⟨JSNum.fin p, JSNum.fin 0⟩, m⟩ =
      "The conventional loan payment is NaN" := by
  rw [calculateConventionalLoanPayment, conventionalPaymentValue_zero_rate p m hm]
  rfl

/-- Witness for C10 at principal 30000, term 180. -/
theorem C10_zero_rate_nan_witness :
    calculateConventionalLoanPayment ⟨⟨JSNum.fin 30000, JSNum.fin 0⟩, 180⟩ =
      "The conventional loan payment is NaN" :=
  C10_zero_rate_nan 30000 180 (by norm_num)
